import Mathlib

/-!
Verification development for the openweather_exporter repository
(`main.go`).  The exporter periodically fetches a weather payload and an
air-pollution payload over HTTP, decodes the JSON bodies, and writes the
resulting numeric observations into a Prometheus gauge registry.

Shallow embedding choices:
* Numeric JSON values pass through the code unchanged (no arithmetic is
  performed on them), so they are modelled by `Rat`.
* An HTTP fetch outcome is either a transport failure or a response with
  a status code and a body; a body is `Option j` where `none` stands for
  a body that fails JSON decoding (`json.NewDecoder(...).Decode` error)
  and `some j` for a body decoding to the JSON document `j`.
* Go `encoding/json` leaves a struct field at its zero value when the
  key is absent, so the JSON-document structures carry `Option` fields
  and the decoders default missing fields to the Go zero values.
* The Prometheus gauge registry (`GaugeVec.WithLabelValues(...).Set`) is
  modelled as an association list from `(series name, label values)` to
  the last value written; `Set` overwrites.
-/

/-- Go `WeatherResponse.Coord` (main.go lines 19-22). -/
structure Coord where
  lon : Rat
  lat : Rat
deriving DecidableEq

/-- One entry of Go `WeatherResponse.Weather` (main.go lines 23-28). -/
structure WeatherItem where
  id : Int
  main : String
  description : String
  icon : String
deriving DecidableEq

/-- Go `WeatherResponse.Main` (main.go lines 30-39). -/
structure WeatherMain where
  temp : Rat
  feelsLike : Rat
  tempMin : Rat
  tempMax : Rat
  pressure : Rat
  humidity : Rat
  seaLevel : Rat
  grndLevel : Rat
deriving DecidableEq

/-- Go `WeatherResponse.Wind` (main.go lines 41-44). -/
structure Wind where
  speed : Rat
  deg : Rat
deriving DecidableEq

/-- Go `WeatherResponse.Clouds` (main.go lines 45-47). -/
structure Clouds where
  all : Rat
deriving DecidableEq

/-- Go `WeatherResponse.Sys` (main.go lines 49-55). -/
structure SysInfo where
  type : Int
  id : Int
  country : String
  sunrise : Int
  sunset : Int
deriving DecidableEq

/-- Go `WeatherResponse` (main.go lines 18-60). -/
structure WeatherResponse where
  coord : Coord
  weather : List WeatherItem
  base : String
  main : WeatherMain
  visibility : Rat
  wind : Wind
  clouds : Clouds
  dt : Int
  sys : SysInfo
  timezone : Int
  id : Int
  name : String
  cod : Int
deriving DecidableEq

/-- Go `AirPollutionResponse.List[i].Main` (main.go lines 69-71). -/
structure PollutionMain where
  aqi : Int
deriving DecidableEq

/-- Go `AirPollutionResponse.List[i].Components` (main.go lines 72-81). -/
structure PollutionComponents where
  co : Rat
  no : Rat
  no2 : Rat
  o3 : Rat
  so2 : Rat
  pm2_5 : Rat
  pm10 : Rat
  nh3 : Rat
deriving DecidableEq

/-- One entry of Go `AirPollutionResponse.List` (main.go lines 68-83). -/
structure PollutionItem where
  main : PollutionMain
  components : PollutionComponents
  dt : Int
deriving DecidableEq

/-- Go `AirPollutionResponse` (main.go lines 63-84). -/
structure AirPollutionResponse where
  coord : Coord
  list : List PollutionItem
deriving DecidableEq

/-- JSON document for `Coord`: every key may be absent. -/
structure CoordJson where
  lon : Option Rat := none
  lat : Option Rat := none

/-- JSON document for one condition entry: every key may be absent. -/
structure WeatherItemJson where
  id : Option Int := none
  main : Option String := none
  description : Option String := none
  icon : Option String := none

/-- JSON document for `WeatherMain`: every key may be absent. -/
structure WeatherMainJson where
  temp : Option Rat := none
  feelsLike : Option Rat := none
  tempMin : Option Rat := none
  tempMax : Option Rat := none
  pressure : Option Rat := none
  humidity : Option Rat := none
  seaLevel : Option Rat := none
  grndLevel : Option Rat := none

/-- JSON document for `Wind`: every key may be absent. -/
structure WindJson where
  speed : Option Rat := none
  deg : Option Rat := none

/-- JSON document for `Clouds`: every key may be absent. -/
structure CloudsJson where
  all : Option Rat := none

/-- JSON document for `SysInfo`: every key may be absent. -/
structure SysInfoJson where
  type : Option Int := none
  id : Option Int := none
  country : Option String := none
  sunrise : Option Int := none
  sunset : Option Int := none

/-- A well-formed weather JSON document: every key may be absent, since
Go `encoding/json` accepts a document with any subset of the struct's
keys and leaves absent fields at their zero value. -/
structure WeatherJson where
  coord : Option CoordJson := none
  weather : Option (List WeatherItemJson) := none
  base : Option String := none
  main : Option WeatherMainJson := none
  visibility : Option Rat := none
  wind : Option WindJson := none
  clouds : Option CloudsJson := none
  dt : Option Int := none
  sys : Option SysInfoJson := none
  timezone : Option Int := none
  id : Option Int := none
  name : Option String := none
  cod : Option Int := none

/-- JSON document for `PollutionMain`: every key may be absent. -/
structure PollutionMainJson where
  aqi : Option Int := none

/-- JSON document for `PollutionComponents`: every key may be absent. -/
structure PollutionComponentsJson where
  co : Option Rat := none
  no : Option Rat := none
  no2 : Option Rat := none
  o3 : Option Rat := none
  so2 : Option Rat := none
  pm2_5 : Option Rat := none
  pm10 : Option Rat := none
  nh3 : Option Rat := none

/-- JSON document for one pollution list entry: every key may be absent. -/
structure PollutionItemJson where
  main : Option PollutionMainJson := none
  components : Option PollutionComponentsJson := none
  dt : Option Int := none

/-- A well-formed air-pollution JSON document. -/
structure PollutionJson where
  coord : Option CoordJson := none
  list : Option (List PollutionItemJson) := none

/-- Go zero-value decode of a `coord` object. -/
def decodeCoord (j : CoordJson) : Coord :=
  { lon := j.lon.getD 0, lat := j.lat.getD 0 }

/-- Go zero-value decode of one condition entry. -/
def decodeWeatherItem (j : WeatherItemJson) : WeatherItem :=
  { id := j.id.getD 0
    main := j.main.getD ""
    description := j.description.getD ""
    icon := j.icon.getD "" }

/-- Go zero-value decode of the `main` object. -/
def decodeWeatherMain (j : WeatherMainJson) : WeatherMain :=
  { temp := j.temp.getD 0
    feelsLike := j.feelsLike.getD 0
    tempMin := j.tempMin.getD 0
    tempMax := j.tempMax.getD 0
    pressure := j.pressure.getD 0
    humidity := j.humidity.getD 0
    seaLevel := j.seaLevel.getD 0
    grndLevel := j.grndLevel.getD 0 }

/-- Go zero-value decode of the `wind` object. -/
def decodeWind (j : WindJson) : Wind :=
  { speed := j.speed.getD 0, deg := j.deg.getD 0 }

/-- Go zero-value decode of the `clouds` object. -/
def decodeClouds (j : CloudsJson) : Clouds :=
  { all := j.all.getD 0 }

/-- Go zero-value decode of the `sys` object. -/
def decodeSysInfo (j : SysInfoJson) : SysInfo :=
  { type := j.type.getD 0
    id := j.id.getD 0
    country := j.country.getD ""
    sunrise := j.sunrise.getD 0
    sunset := j.sunset.getD 0 }

/-- Decoding a weather JSON document into Go's `WeatherResponse` struct:
absent keys become zero values (main.go lines 286-289). -/
def decodeWeather (j : WeatherJson) : WeatherResponse :=
  { coord := decodeCoord (j.coord.getD {})
    weather := (j.weather.getD []).map decodeWeatherItem
    base := j.base.getD ""
    main := decodeWeatherMain (j.main.getD {})
    visibility := j.visibility.getD 0
    wind := decodeWind (j.wind.getD {})
    clouds := decodeClouds (j.clouds.getD {})
    dt := j.dt.getD 0
    sys := decodeSysInfo (j.sys.getD {})
    timezone := j.timezone.getD 0
    id := j.id.getD 0
    name := j.name.getD ""
    cod := j.cod.getD 0 }

/-- Go zero-value decode of `PollutionMain`. -/
def decodePollutionMain (j : PollutionMainJson) : PollutionMain :=
  { aqi := j.aqi.getD 0 }

/-- Go zero-value decode of `PollutionComponents`. -/
def decodePollutionComponents (j : PollutionComponentsJson) : PollutionComponents :=
  { co := j.co.getD 0
    no := j.no.getD 0
    no2 := j.no2.getD 0
    o3 := j.o3.getD 0
    so2 := j.so2.getD 0
    pm2_5 := j.pm2_5.getD 0
    pm10 := j.pm10.getD 0
    nh3 := j.nh3.getD 0 }

/-- Go zero-value decode of one pollution list entry. -/
def decodePollutionItem (j : PollutionItemJson) : PollutionItem :=
  { main := decodePollutionMain (j.main.getD {})
    components := decodePollutionComponents (j.components.getD {})
    dt := j.dt.getD 0 }

/-- Decoding an air-pollution JSON document into Go's
`AirPollutionResponse` struct (main.go lines 326-329). -/
def decodePollution (j : PollutionJson) : AirPollutionResponse :=
  { coord := decodeCoord (j.coord.getD {})
    list := (j.list.getD []).map decodePollutionItem }

/-- Go `strconv.Itoa` on the decoded `int`: decimal notation, `-` sign
for negatives (main.go line 291). -/
def itoa (n : Int) : String :=
  toString n

/-- A registry key: the metric (series) name together with the ordered
label values supplied to `WithLabelValues`. -/
structure MetricKey where
  series : String
  labels : List String
deriving DecidableEq

/-- One `(series, labels, value)` observation, i.e. one
`WithLabelValues(...).Set(value)` call. -/
structure Observation where
  series : String
  labels : List String
  value : Rat
deriving DecidableEq

/-- The metric registry: an association list from keys to the last value
written.  `main.go` uses the global Prometheus default registry; gauge
`Set` overwrites the stored value for its key. -/
abbrev Registry := List (MetricKey × Rat)

/-- `GaugeVec.WithLabelValues(labels...).Set(v)`: overwrite the value of
the first entry with the given key, or append a new entry. -/
def Registry.set (r : Registry) (k : MetricKey) (v : Rat) : Registry :=
  match r with
  | [] => [(k, v)]
  | e :: rest => if e.1 = k then (k, v) :: rest else e :: Registry.set rest k v

/-- Read the current value stored for a key, if any. -/
def Registry.get? (r : Registry) (k : MetricKey) : Option Rat :=
  (r.find? fun e => e.1 = k).map fun e => e.2

/-- Apply one observation to the registry. -/
def Registry.setObs (r : Registry) (o : Observation) : Registry :=
  Registry.set r ⟨o.series, o.labels⟩ o.value

/-- Apply a list of observations in order. -/
def writeAll (r : Registry) (os : List Observation) : Registry :=
  os.foldl Registry.setObs r

/-- The error taxonomy of a fetch: transport failure (`http.Get` error),
non-OK status (carrying the code), or JSON decode failure. -/
inductive FetchError where
  | transportError : FetchError
  | statusError (code : Nat) : FetchError
  | decodeError : FetchError
deriving DecidableEq

/-- Outcome of the `http.Get` call: transport failure, or a response
carrying a status code and a body.  The body is `none` when JSON
decoding of it would fail, `some j` when it decodes to document `j`. -/
inductive HttpResult (j : Type) where
  | transportError : HttpResult j
  | response (status : Nat) (body : Option j) : HttpResult j

/-- A fetch outcome on which the Go code takes an error return: transport
failure, status other than 200 (`http.StatusOK`), or undecodable body. -/
def httpFails {j : Type} : HttpResult j → Prop
  | HttpResult.transportError => True
  | HttpResult.response status body => status ≠ 200 ∨ body = none

/-- The ordered list of gauge writes performed on a decoded weather
payload (main.go lines 294-310): twelve per-field observations labelled
by station, then, when the condition list is non-empty, one condition
observation with value 1 labelled by station, main and description of
the first entry. -/
def weatherObservations (w : WeatherResponse) : List Observation :=
  let station := itoa w.id
  [ ⟨"ow_weather_temp", [station], w.main.temp⟩,
    ⟨"ow_weather_feels_like", [station], w.main.feelsLike⟩,
    ⟨"ow_weather_temp_min", [station], w.main.tempMin⟩,
    ⟨"ow_weather_temp_max", [station], w.main.tempMax⟩,
    ⟨"ow_weather_pressure", [station], w.main.pressure⟩,
    ⟨"ow_weather_humidity", [station], w.main.humidity⟩,
    ⟨"ow_weather_sea_level", [station], w.main.seaLevel⟩,
    ⟨"ow_weather_grnd_level", [station], w.main.grndLevel⟩,
    ⟨"ow_weather_visibility", [station], w.visibility⟩,
    ⟨"ow_weather_wind_speed", [station], w.wind.speed⟩,
    ⟨"ow_weather_wind_deg", [station], w.wind.deg⟩,
    ⟨"ow_weather_clouds", [station], w.clouds.all⟩ ]
  ++ (match w.weather with
      | [] => []
      | c :: _ => [⟨"ow_weather_condition", [station, c.main, c.description], 1⟩])

/-- The ordered list of gauge writes performed on a decoded pollution
payload (main.go lines 332-343): when the list is non-empty, nine
per-pollutant observations from its first entry, labelled by the station
string passed in; when the list is empty, none. -/
def pollutionObservations (station : String) (p : AirPollutionResponse) :
    List Observation :=
  match p.list with
  | [] => []
  | d :: _ =>
    [ ⟨"ow_air_pollution_aqi", [station], (d.main.aqi : Rat)⟩,
      ⟨"ow_air_pollution_co", [station], d.components.co⟩,
      ⟨"ow_air_pollution_no", [station], d.components.no⟩,
      ⟨"ow_air_pollution_no2", [station], d.components.no2⟩,
      ⟨"ow_air_pollution_o3", [station], d.components.o3⟩,
      ⟨"ow_air_pollution_so2", [station], d.components.so2⟩,
      ⟨"ow_air_pollution_pm2_5", [station], d.components.pm2_5⟩,
      ⟨"ow_air_pollution_pm10", [station], d.components.pm10⟩,
      ⟨"ow_air_pollution_nh3", [station], d.components.nh3⟩ ]

/-- Go `fetchWeatherData` (main.go lines 275-313) as a transformer of the
registry state.  On transport failure, non-200 status or decode failure
it returns the error and leaves the registry as given; on success it
performs the gauge writes of `weatherObservations` in source order and
returns the station string `strconv.Itoa(weather.ID)`. -/
def fetchWeatherData (res : HttpResult WeatherJson) (reg : Registry) :
    Except FetchError String × Registry :=
  match res with
  | HttpResult.transportError => (Except.error FetchError.transportError, reg)
  | HttpResult.response status body =>
    if status = 200 then
      match body with
      | none => (Except.error FetchError.decodeError, reg)
      | some j =>
        let weather := decodeWeather j
        let station := itoa weather.id
        (Except.ok station, writeAll reg (weatherObservations weather))
    else (Except.error (FetchError.statusError status), reg)

/-- Go `fetchAirPollutionData` (main.go lines 315-346) as a transformer
of the registry state.  On transport failure, non-200 status or decode
failure it returns the error and leaves the registry as given; on
success it performs the gauge writes of `pollutionObservations` (none
when the decoded list is empty). -/
def fetchAirPollutionData (res : HttpResult PollutionJson) (station : String)
    (reg : Registry) : Except FetchError Unit × Registry :=
  match res with
  | HttpResult.transportError => (Except.error FetchError.transportError, reg)
  | HttpResult.response status body =>
    if status = 200 then
      match body with
      | none => (Except.error FetchError.decodeError, reg)
      | some j =>
        (Except.ok (), writeAll reg (pollutionObservations station (decodePollution j)))
    else (Except.error (FetchError.statusError status), reg)

/-- Result of one refresh cycle: the registry afterwards and whether the
pollution fetch was attempted at all. -/
structure CycleResult where
  registry : Registry
  pollutionAttempted : Bool
deriving DecidableEq

/-- Go `updateMetrics` (main.go lines 348-358): fetch weather; on error
log and return without attempting the pollution fetch; otherwise fetch
pollution with the station derived from the weather response, ignoring
its error beyond logging. -/
def updateMetrics (wres : HttpResult WeatherJson)
    (pres : HttpResult PollutionJson) (reg : Registry) : CycleResult :=
  match fetchWeatherData wres reg with
  | (Except.error _, reg1) => ⟨reg1, false⟩
  | (Except.ok station, reg1) =>
    ⟨(fetchAirPollutionData pres station reg1).2, true⟩

/-- The twelve station-only weather series names plus the condition
series (main.go lines 89-179). -/
def weatherSeriesNames : List String :=
  [ "ow_weather_temp", "ow_weather_feels_like", "ow_weather_temp_min",
    "ow_weather_temp_max", "ow_weather_pressure", "ow_weather_humidity",
    "ow_weather_sea_level", "ow_weather_grnd_level", "ow_weather_visibility",
    "ow_weather_wind_speed", "ow_weather_wind_deg", "ow_weather_clouds",
    "ow_weather_condition" ]

/-- The nine pollution series names (main.go lines 182-244). -/
def pollutionSeriesNames : List String :=
  [ "ow_air_pollution_aqi", "ow_air_pollution_co", "ow_air_pollution_no",
    "ow_air_pollution_no2", "ow_air_pollution_o3", "ow_air_pollution_so2",
    "ow_air_pollution_pm2_5", "ow_air_pollution_pm10", "ow_air_pollution_nh3" ]

/-- Overwriting a key stores the new value under that key. -/
theorem Registry.get_set_self (r : Registry) (k : MetricKey) (v : Rat) :
    (Registry.set r k v).get? k = some v := by
  induction r with
  | nil => simp [Registry.set, Registry.get?]
  | cons e rest ih =>
    by_cases h : e.1 = k
    · simp [Registry.set, h, Registry.get?, List.find?]
    · simpa [Registry.set, h, Registry.get?, List.find?] using ih

/-- Overwriting one key leaves every other key's value unchanged. -/
theorem Registry.get_set_ne (r : Registry) (k k2 : MetricKey) (v : Rat)
    (h : k2 ≠ k) : (Registry.set r k2 v).get? k = r.get? k := by
  induction r with
  | nil => simp [Registry.set, Registry.get?, List.find?, h]
  | cons e rest ih =>
    by_cases he : e.1 = k2
    · simp [Registry.set, he, Registry.get?, List.find?, h]
    · by_cases hk : e.1 = k
      · simp [Registry.set, he, Registry.get?, List.find?, hk, Ne.symm h]
      · simpa [Registry.set, he, Registry.get?, List.find?, hk] using ih

/-- Writing a key twice collapses to the second write. -/
theorem Registry.set_set_self (r : Registry) (k : MetricKey) (v1 v2 : Rat) :
    Registry.set (Registry.set r k v1) k v2 = Registry.set r k v2 := by
  induction r with
  | nil => simp [Registry.set]
  | cons e rest ih =>
    by_cases h : e.1 = k
    · simp [Registry.set, h]
    · simp [Registry.set, h, ih]

/-- A sequence of writes that never touches series `k.series` leaves the
value stored under `k` unchanged. -/
theorem writeAll_get_ne (os : List Observation) (r : Registry) (k : MetricKey)
    (h : ∀ o ∈ os, o.series ≠ k.series) :
    (writeAll r os).get? k = r.get? k := by
  induction os generalizing r with
  | nil => simp [writeAll]
  | cons o rest ih =>
    have hne : (⟨o.series, o.labels⟩ : MetricKey) ≠ k := by
      intro hk
      exact h o (List.mem_cons_self o rest) (congrArg MetricKey.series hk)
    calc (writeAll r (o :: rest)).get? k
        = (writeAll (Registry.setObs r o) rest).get? k := by simp [writeAll]
      _ = (Registry.setObs r o).get? k := ih _ fun o2 h2 => h o2 (List.mem_cons_of_mem _ h2)
      _ = r.get? k := Registry.get_set_ne _ _ _ _ hne

/-- Every weather observation's series is one of the weather series
names. -/
theorem weatherObservations_series (w : WeatherResponse) :
    ∀ o ∈ weatherObservations w, o.series ∈ weatherSeriesNames := by
  intro o ho
  cases hw : w.weather with
  | nil =>
    simp [weatherObservations, hw] at ho
    rcases ho with h | h | h | h | h | h | h | h | h | h | h | h <;>
      simp [h, weatherSeriesNames]
  | cons c rest =>
    simp [weatherObservations, hw] at ho
    rcases ho with h | h | h | h | h | h | h | h | h | h | h | h | h <;>
      simp [h, weatherSeriesNames]

/-- Every pollution observation's series is one of the pollution series
names. -/
theorem pollutionObservations_series (st : String) (p : AirPollutionResponse) :
    ∀ o ∈ pollutionObservations st p, o.series ∈ pollutionSeriesNames := by
  intro o ho
  cases hp : p.list with
  | nil => simp [pollutionObservations, hp] at ho
  | cons d rest =>
    simp [pollutionObservations, hp] at ho
    rcases ho with h | h | h | h | h | h | h | h | h <;>
      simp [h, pollutionSeriesNames]

/-- The weather and pollution series names are disjoint. -/
theorem weather_pollution_series_disjoint :
    ∀ s ∈ weatherSeriesNames, s ∉ pollutionSeriesNames := by decide

/-- A failing weather fetch returns an error and the registry it was
given. -/
theorem fetchWeatherData_fails (res : HttpResult WeatherJson) (reg : Registry)
    (h : httpFails res) :
    ∃ e, fetchWeatherData res reg = (Except.error e, reg) := by
  cases res with
  | transportError => exact ⟨FetchError.transportError, rfl⟩
  | response status body =>
    simp only [httpFails] at h
    by_cases hs : status = 200
    · subst hs
      rcases h with h | h
      · exact absurd rfl h
      · subst h
        exact ⟨FetchError.decodeError, rfl⟩
    · exact ⟨FetchError.statusError status, by simp [fetchWeatherData, hs]⟩

/-- A failing pollution fetch returns an error and the registry it was
given. -/
theorem fetchAirPollutionData_fails (res : HttpResult PollutionJson)
    (st : String) (reg : Registry) (h : httpFails res) :
    ∃ e, fetchAirPollutionData res st reg = (Except.error e, reg) := by
  cases res with
  | transportError => exact ⟨FetchError.transportError, rfl⟩
  | response status body =>
    simp only [httpFails] at h
    by_cases hs : status = 200
    · subst hs
      rcases h with h | h
      · exact absurd rfl h
      · subst h
        exact ⟨FetchError.decodeError, rfl⟩
    · exact ⟨FetchError.statusError status, by simp [fetchAirPollutionData, hs]⟩

/-- C1: in any refresh cycle whose weather fetch fails (transport error,
non-OK status such as 401, or decode error), the cycle aborts: the
registry is returned exactly as it was and the pollution fetch is not
attempted. -/
theorem updateMetrics_weather_failure_aborts
    (wres : HttpResult WeatherJson) (pres : HttpResult PollutionJson)
    (reg : Registry) (h : httpFails wres) :
    updateMetrics wres pres reg = ⟨reg, false⟩ := by
  obtain ⟨e, he⟩ := fetchWeatherData_fails wres reg h
  simp [updateMetrics, he]

/-- Witness for C1 at the spec's 401 scenario: a weather fetch answered
with status 401 leaves a one-entry registry untouched and skips the
pollution fetch. -/
theorem updateMetrics_weather_failure_aborts_witness :
    updateMetrics (HttpResult.response 401 (some {}))
        (HttpResult.response 200 (some {}))
        [(⟨"ow_weather_temp", ["42"]⟩, 15)] =
      ⟨[(⟨"ow_weather_temp", ["42"]⟩, 15)], false⟩ :=
  updateMetrics_weather_failure_aborts _ _ _ (Or.inl (by decide))

/-- C2: in any refresh cycle whose weather fetch succeeds and whose
pollution fetch fails, the registry afterwards is exactly the given
registry with the new weather observations written (the weather writes
stand), the pollution fetch was attempted, and every key of a pollution
series still holds its value from before the cycle. -/
theorem updateMetrics_pollution_failure_isolated
    (j : WeatherJson) (pres : HttpResult PollutionJson) (reg : Registry)
    (h : httpFails pres) :
    updateMetrics (HttpResult.response 200 (some j)) pres reg =
      ⟨writeAll reg (weatherObservations (decodeWeather j)), true⟩ ∧
    ∀ k : MetricKey, k.series ∈ pollutionSeriesNames →
      (updateMetrics (HttpResult.response 200 (some j)) pres reg).registry.get? k
        = reg.get? k := by
  obtain ⟨e, he⟩ :=
    fetchAirPollutionData_fails pres
      (itoa (decodeWeather j).id)
      (writeAll reg (weatherObservations (decodeWeather j))) h
  have hcycle : updateMetrics (HttpResult.response 200 (some j)) pres reg =
      ⟨writeAll reg (weatherObservations (decodeWeather j)), true⟩ := by
    simp [updateMetrics, fetchWeatherData, he]
  refine ⟨hcycle, fun k hk => ?_⟩
  rw [hcycle]
  exact writeAll_get_ne _ _ _ fun o ho hs =>
    weather_pollution_series_disjoint o.series
      (weatherObservations_series _ o ho) (hs ▸ hk)

/-- Witness for C2: with an empty prior registry, a decoded weather
payload of all defaults and a pollution fetch failing with status 500,
the cycle ends with exactly the weather observations written, the
pollution fetch attempted, and the (absent) pollution key unchanged. -/
theorem updateMetrics_pollution_failure_isolated_witness :
    updateMetrics (HttpResult.response 200 (some {}))
        (HttpResult.response 500 (some {})) [] =
      ⟨writeAll [] (weatherObservations (decodeWeather {})), true⟩ ∧
    (updateMetrics (HttpResult.response 200 (some {}))
        (HttpResult.response 500 (some {})) []).registry.get?
      ⟨"ow_air_pollution_aqi", ["0"]⟩ = Registry.get? [] ⟨"ow_air_pollution_aqi", ["0"]⟩ :=
  ⟨(updateMetrics_pollution_failure_isolated {}
      (HttpResult.response 500 (some {})) [] (Or.inl (by decide))).1,
   (updateMetrics_pollution_failure_isolated {}
      (HttpResult.response 500 (some {})) [] (Or.inl (by decide))).2
     ⟨"ow_air_pollution_aqi", ["0"]⟩ (by simp [pollutionSeriesNames])⟩

/-- C3: for every decoded weather payload, the mapping emits exactly one
observation per metric field, each carrying that field's value and
labelled only by the station; when the condition list is non-empty it
additionally emits exactly one condition observation with value 1
labelled by station, main and description of the first entry, and when
the list is empty it emits no condition observation. -/
theorem weatherObservations_per_field (w : WeatherResponse) :
    ((weatherObservations w).filter (fun o => o.series = "ow_weather_temp") =
      [⟨"ow_weather_temp", [itoa w.id], w.main.temp⟩]) ∧
    ((weatherObservations w).filter (fun o => o.series = "ow_weather_feels_like") =
      [⟨"ow_weather_feels_like", [itoa w.id], w.main.feelsLike⟩]) ∧
    ((weatherObservations w).filter (fun o => o.series = "ow_weather_temp_min") =
      [⟨"ow_weather_temp_min", [itoa w.id], w.main.tempMin⟩]) ∧
    ((weatherObservations w).filter (fun o => o.series = "ow_weather_temp_max") =
      [⟨"ow_weather_temp_max", [itoa w.id], w.main.tempMax⟩]) ∧
    ((weatherObservations w).filter (fun o => o.series = "ow_weather_pressure") =
      [⟨"ow_weather_pressure", [itoa w.id], w.main.pressure⟩]) ∧
    ((weatherObservations w).filter (fun o => o.series = "ow_weather_humidity") =
      [⟨"ow_weather_humidity", [itoa w.id], w.main.humidity⟩]) ∧
    ((weatherObservations w).filter (fun o => o.series = "ow_weather_sea_level") =
      [⟨"ow_weather_sea_level", [itoa w.id], w.main.seaLevel⟩]) ∧
    ((weatherObservations w).filter (fun o => o.series = "ow_weather_grnd_level") =
      [⟨"ow_weather_grnd_level", [itoa w.id], w.main.grndLevel⟩]) ∧
    ((weatherObservations w).filter (fun o => o.series = "ow_weather_visibility") =
      [⟨"ow_weather_visibility", [itoa w.id], w.visibility⟩]) ∧
    ((weatherObservations w).filter (fun o => o.series = "ow_weather_wind_speed") =
      [⟨"ow_weather_wind_speed", [itoa w.id], w.wind.speed⟩]) ∧
    ((weatherObservations w).filter (fun o => o.series = "ow_weather_wind_deg") =
      [⟨"ow_weather_wind_deg", [itoa w.id], w.wind.deg⟩]) ∧
    ((weatherObservations w).filter (fun o => o.series = "ow_weather_clouds") =
      [⟨"ow_weather_clouds", [itoa w.id], w.clouds.all⟩]) ∧
    (match w.weather with
     | [] => (weatherObservations w).filter
         (fun o => o.series = "ow_weather_condition") = []
     | c :: _ => (weatherObservations w).filter
         (fun o => o.series = "ow_weather_condition") =
           [⟨"ow_weather_condition", [itoa w.id, c.main, c.description], 1⟩]) := by
  cases hw : w.weather with
  | nil => simp [weatherObservations, hw, List.filter]
  | cons c rest => simp [weatherObservations, hw, List.filter]

/-- C4: for every decoded pollution payload, every emitted observation
is labelled only by the station; when the payload's list is non-empty
the mapping emits exactly one observation per pollutant field, in source
order, with the values of the first list entry; when the list is empty
no observations are emitted. -/
theorem pollutionObservations_per_field (st : String) (p : AirPollutionResponse) :
    (∀ o ∈ pollutionObservations st p, o.labels = [st]) ∧
    (match p.list with
     | [] => pollutionObservations st p = []
     | d :: _ =>
       (pollutionObservations st p).map (fun o => (o.series, o.value)) =
         [ ("ow_air_pollution_aqi", (d.main.aqi : Rat)),
           ("ow_air_pollution_co", d.components.co),
           ("ow_air_pollution_no", d.components.no),
           ("ow_air_pollution_no2", d.components.no2),
           ("ow_air_pollution_o3", d.components.o3),
           ("ow_air_pollution_so2", d.components.so2),
           ("ow_air_pollution_pm2_5", d.components.pm2_5),
           ("ow_air_pollution_pm10", d.components.pm10),
           ("ow_air_pollution_nh3", d.components.nh3) ]) := by
  cases hp : p.list with
  | nil =>
    refine ⟨fun o ho => ?_, by simp [pollutionObservations, hp]⟩
    simp [pollutionObservations, hp] at ho
  | cons d rest =>
    refine ⟨fun o ho => ?_, by simp [pollutionObservations, hp]⟩
    simp [pollutionObservations, hp] at ho
    rcases ho with h | h | h | h | h | h | h | h | h <;> simp [h]

/-- Counterexample to C5 as stated: HTTP status 201 lies in the 2xx
range, yet both fetches fail with a status error carrying 201 instead of
proceeding to body decoding. -/
theorem fetch_status_201_counterexample :
    (200 ≤ 201 ∧ 201 < 300) ∧
    (fetchWeatherData (HttpResult.response 201 (some {})) []).1 =
      Except.error (FetchError.statusError 201) ∧
    (fetchAirPollutionData (HttpResult.response 201 (some {})) "42" []).1 =
      Except.error (FetchError.statusError 201) :=
  ⟨⟨by decide, by decide⟩, rfl, rfl⟩

/-- C5 (amended): each fetch fails with a status error carrying the
received code exactly when the status differs from 200 (`http.StatusOK`),
and a 200 response proceeds to body decoding (yielding a decode error or
the decoded result). -/
theorem fetch_statusError_iff_not_200 (status : Nat)
    (body : Option WeatherJson) (pbody : Option PollutionJson)
    (st : String) (reg : Registry) :
    ((fetchWeatherData (HttpResult.response status body) reg).1 =
        Except.error (FetchError.statusError status) ↔ status ≠ 200) ∧
    ((fetchAirPollutionData (HttpResult.response status pbody) st reg).1 =
        Except.error (FetchError.statusError status) ↔ status ≠ 200) ∧
    (status = 200 →
      (fetchWeatherData (HttpResult.response status body) reg).1 =
        (match body with
         | none => Except.error FetchError.decodeError
         | some j => Except.ok (itoa (decodeWeather j).id)) ∧
      (fetchAirPollutionData (HttpResult.response status pbody) st reg).1 =
        (match pbody with
         | none => Except.error FetchError.decodeError
         | some _ => Except.ok ())) := by
  by_cases hs : status = 200
  · subst hs
    refine ⟨?_, ?_, fun _ => ⟨?_, ?_⟩⟩ <;>
      cases body <;> cases pbody <;> simp [fetchWeatherData, fetchAirPollutionData]
  · refine ⟨?_, ?_, fun h => absurd h hs⟩ <;>
      simp [fetchWeatherData, fetchAirPollutionData, hs]

/-- Witness for C5 (amended) at status 404 and status 200: a 404
response yields a status error carrying 404, and a 200 response with a
decodable body proceeds past the status check. -/
theorem fetch_statusError_iff_not_200_witness :
    ((fetchWeatherData (HttpResult.response 404 (some {})) []).1 =
      Except.error (FetchError.statusError 404)) ∧
    ((fetchWeatherData (HttpResult.response 200 (some {})) []).1 =
      Except.ok (itoa (decodeWeather {}).id)) :=
  ⟨(fetch_statusError_iff_not_200 404 (some {}) (some {}) "42" []).1.mpr (by decide),
   ((fetch_statusError_iff_not_200 200 (some {}) (some {}) "42" []).2.2 rfl).1⟩

/-- Counterexample to C6 as stated: a successful fetch does mutate the
metric registry.  Starting from an empty registry, a 200 weather
response with an all-default body leaves the registry non-empty, and so
does a 200 pollution response with a one-entry list. -/
theorem fetch_mutates_registry_counterexample :
    (fetchWeatherData (HttpResult.response 200 (some {})) []).2 ≠ [] ∧
    (fetchAirPollutionData (HttpResult.response 200
        (some { list := some [{}] })) "42" []).2 ≠ [] := by
  constructor <;> decide

/-- C6 (amended): the fetch operations mutate no state other than the
metric registry; they leave the registry exactly as given unless the
fetch fully succeeds, in which case the registry changes precisely by
the mapped observations of the decoded payload (the source fuses fetch
and registry writes in one function). -/
theorem fetch_registry_effect (wres : HttpResult WeatherJson)
    (pres : HttpResult PollutionJson) (st : String) (reg : Registry) :
    ((fetchWeatherData wres reg).2 = reg ∨
      ∃ j, wres = HttpResult.response 200 (some j) ∧
        fetchWeatherData wres reg =
          (Except.ok (itoa (decodeWeather j).id),
           writeAll reg (weatherObservations (decodeWeather j)))) ∧
    ((fetchAirPollutionData pres st reg).2 = reg ∨
      ∃ pj, pres = HttpResult.response 200 (some pj) ∧
        fetchAirPollutionData pres st reg =
          (Except.ok (),
           writeAll reg (pollutionObservations st (decodePollution pj)))) := by
  constructor
  · cases wres with
    | transportError => exact Or.inl rfl
    | response status body =>
      by_cases hs : status = 200
      · subst hs
        cases body with
        | none => exact Or.inl rfl
        | some j => exact Or.inr ⟨j, rfl, rfl⟩
      · exact Or.inl (by simp [fetchWeatherData, hs])
  · cases pres with
    | transportError => exact Or.inl rfl
    | response status body =>
      by_cases hs : status = 200
      · subst hs
        cases body with
        | none => exact Or.inl rfl
        | some pj => exact Or.inr ⟨pj, rfl, rfl⟩
      · exact Or.inl (by simp [fetchAirPollutionData, hs])

/-- C7: the mappings are deterministic and stateless — two invocations
on the same payload give the same observation list, and the write
sequence of a successful fetch is the same fold of that payload-only
list whatever the prior registry state. -/
theorem mapping_deterministic (w : WeatherResponse) (st : String)
    (p : AirPollutionResponse) (j : WeatherJson) (pj : PollutionJson)
    (reg1 reg2 : Registry) :
    (weatherObservations w = weatherObservations w) ∧
    (pollutionObservations st p = pollutionObservations st p) ∧
    ((fetchWeatherData (HttpResult.response 200 (some j)) reg1).2 =
        writeAll reg1 (weatherObservations (decodeWeather j)) ∧
     (fetchWeatherData (HttpResult.response 200 (some j)) reg2).2 =
        writeAll reg2 (weatherObservations (decodeWeather j))) ∧
    ((fetchAirPollutionData (HttpResult.response 200 (some pj)) st reg1).2 =
        writeAll reg1 (pollutionObservations st (decodePollution pj)) ∧
     (fetchAirPollutionData (HttpResult.response 200 (some pj)) st reg2).2 =
        writeAll reg2 (pollutionObservations st (decodePollution pj))) := by
  refine ⟨rfl, rfl, ⟨?_, ?_⟩, ⟨?_, ?_⟩⟩ <;>
    simp [fetchWeatherData, fetchAirPollutionData]

/-- Keys absent from the registry contribute nothing to a key filter. -/
theorem Registry.filter_eq_nil_of_not_mem (r : Registry) (k : MetricKey)
    (h : k ∉ r.map Prod.fst) :
    r.filter (fun e => e.1 = k) = [] := by
  induction r with
  | nil => rfl
  | cons e rest ih =>
    simp only [List.map_cons, List.mem_cons, not_or] at h
    have he : e.1 ≠ k := fun hh => h.1 hh.symm
    simp [List.filter, he, ih h.2]

/-- The registry is well-formed when no key occurs twice; `set` starting
from the empty registry preserves this. -/
def Registry.WF (r : Registry) : Prop :=
  (r.map Prod.fst).Nodup

/-- In a well-formed registry, after a write the entries under the
written key are exactly the one new entry. -/
theorem Registry.filter_set (r : Registry) (k : MetricKey) (v : Rat)
    (h : Registry.WF r) :
    (Registry.set r k v).filter (fun e => e.1 = k) = [(k, v)] := by
  induction r with
  | nil => simp [Registry.set, List.filter]
  | cons e rest ih =>
    simp only [Registry.WF, List.map_cons, List.nodup_cons] at h
    by_cases he : e.1 = k
    · simp [Registry.set, he, List.filter,
        Registry.filter_eq_nil_of_not_mem rest k (he ▸ h.1)]
    · simp [Registry.set, he, List.filter, ih h.2]

/-- C8: writing `v1` and then `v2` under one `(series, labels)` key
leaves the registry holding only `v2` for that key — the lookup returns
`v2` and, in a well-formed registry, the snapshot's entries under that
key are exactly the single entry `(k, v2)`. -/
theorem registry_overwrite_last (r : Registry) (k : MetricKey) (v1 v2 : Rat)
    (h : Registry.WF r) :
    (Registry.set (Registry.set r k v1) k v2).get? k = some v2 ∧
    (Registry.set (Registry.set r k v1) k v2).filter (fun e => e.1 = k) =
      [(k, v2)] := by
  rw [Registry.set_set_self]
  exact ⟨Registry.get_set_self r k v2, Registry.filter_set r k v2 h⟩

/-- Witness for C8: in a one-entry registry, overwriting the temperature
key with 1 and then 2 leaves exactly the value 2 under that key. -/
theorem registry_overwrite_last_witness :
    (Registry.set (Registry.set [(⟨"ow_weather_temp", ["42"]⟩, 15)]
        ⟨"ow_weather_temp", ["42"]⟩ 1) ⟨"ow_weather_temp", ["42"]⟩ 2).get?
      ⟨"ow_weather_temp", ["42"]⟩ = some 2 ∧
    (Registry.set (Registry.set [(⟨"ow_weather_temp", ["42"]⟩, 15)]
        ⟨"ow_weather_temp", ["42"]⟩ 1) ⟨"ow_weather_temp", ["42"]⟩ 2).filter
      (fun e => e.1 = ⟨"ow_weather_temp", ["42"]⟩) =
      [(⟨"ow_weather_temp", ["42"]⟩, 2)] :=
  registry_overwrite_last [(⟨"ow_weather_temp", ["42"]⟩, 15)]
    ⟨"ow_weather_temp", ["42"]⟩ 1 2 (by simp [Registry.WF])

/-- C9: a fetch that ends in an error — transport, status or decode —
performs no registry write at all: the registry component of the result
is exactly the registry passed in. -/
theorem fetch_error_leaves_registry (wres : HttpResult WeatherJson)
    (pres : HttpResult PollutionJson) (st : String) (reg : Registry) :
    (∀ e, (fetchWeatherData wres reg).1 = Except.error e →
      (fetchWeatherData wres reg).2 = reg) ∧
    (∀ e, (fetchAirPollutionData pres st reg).1 = Except.error e →
      (fetchAirPollutionData pres st reg).2 = reg) := by
  constructor
  · intro e he
    cases wres with
    | transportError => rfl
    | response status body =>
      by_cases hs : status = 200
      · subst hs
        cases body with
        | none => rfl
        | some j => simp [fetchWeatherData] at he
      · simp [fetchWeatherData, hs]
  · intro e he
    cases pres with
    | transportError => rfl
    | response status body =>
      by_cases hs : status = 200
      · subst hs
        cases body with
        | none => rfl
        | some pj => simp [fetchAirPollutionData] at he
      · simp [fetchAirPollutionData, hs]

/-- Witness for C9: a weather fetch failing with status 500 and a
pollution fetch failing on decode both leave a one-entry registry
exactly as it was. -/
theorem fetch_error_leaves_registry_witness :
    (fetchWeatherData (HttpResult.response 500 (some {}))
        [(⟨"ow_weather_temp", ["42"]⟩, 7)]).2 =
      [(⟨"ow_weather_temp", ["42"]⟩, 7)] ∧
    (fetchAirPollutionData (HttpResult.response 200 none) "42"
        [(⟨"ow_weather_temp", ["42"]⟩, 7)]).2 =
      [(⟨"ow_weather_temp", ["42"]⟩, 7)] :=
  ⟨(fetch_error_leaves_registry (HttpResult.response 500 (some {}))
      (HttpResult.response 200 none) "42"
      [(⟨"ow_weather_temp", ["42"]⟩, 7)]).1 (FetchError.statusError 500) rfl,
   (fetch_error_leaves_registry (HttpResult.response 500 (some {}))
      (HttpResult.response 200 none) "42"
      [(⟨"ow_weather_temp", ["42"]⟩, 7)]).2 FetchError.decodeError rfl⟩

/-- C10: in a cycle whose weather payload decodes, the station string is
`strconv.Itoa` of the decoded top-level `id`, which is the JSON `id`
when present and 0 when the key is absent; every weather observation's
first label and every pollution observation's label list carry exactly
that station string, the cycle threads it into the pollution fetch, and
a payload without the `id` key proceeds normally under station "0". -/
theorem station_label_from_weather_id (j : WeatherJson) (pj : PollutionJson)
    (pres : HttpResult PollutionJson) (reg : Registry) :
    ((decodeWeather j).id = j.id.getD 0) ∧
    ((fetchWeatherData (HttpResult.response 200 (some j)) reg).1 =
      Except.ok (itoa (decodeWeather j).id)) ∧
    (updateMetrics (HttpResult.response 200 (some j)) pres reg =
      ⟨(fetchAirPollutionData pres (itoa (decodeWeather j).id)
          (writeAll reg (weatherObservations (decodeWeather j)))).2, true⟩) ∧
    (∀ o ∈ weatherObservations (decodeWeather j),
      o.labels.head? = some (itoa (decodeWeather j).id)) ∧
    (∀ o ∈ pollutionObservations (itoa (decodeWeather j).id) (decodePollution pj),
      o.labels = [itoa (decodeWeather j).id]) ∧
    (j.id = none →
      (fetchWeatherData (HttpResult.response 200 (some j)) reg).1 =
        Except.ok "0") := by
  refine ⟨rfl, ?_, ?_, ?_, ?_, ?_⟩
  · simp [fetchWeatherData]
  · simp [updateMetrics, fetchWeatherData]
  · intro o ho
    cases hw : (decodeWeather j).weather with
    | nil =>
      simp [weatherObservations, hw] at ho
      rcases ho with h | h | h | h | h | h | h | h | h | h | h | h <;> simp [h]
    | cons c rest =>
      simp [weatherObservations, hw] at ho
      rcases ho with h | h | h | h | h | h | h | h | h | h | h | h | h <;> simp [h]
  · intro o ho
    cases hp : (decodePollution pj).list with
    | nil => simp [pollutionObservations, hp] at ho
    | cons d rest =>
      simp [pollutionObservations, hp] at ho
      rcases ho with h | h | h | h | h | h | h | h | h <;> simp [h]
  · intro h
    have h0 : (decodeWeather j).id = 0 := by simp [decodeWeather, h]
    calc (fetchWeatherData (HttpResult.response 200 (some j)) reg).1
        = Except.ok (itoa (decodeWeather j).id) := by simp [fetchWeatherData]
      _ = Except.ok "0" := by rw [h0]; exact congrArg Except.ok (by decide)

/-- Witness for C10 at a payload whose JSON omits `id`: the fetch
succeeds with station "0". -/
theorem station_label_from_weather_id_witness :
    (fetchWeatherData (HttpResult.response 200 (some {})) []).1 =
      Except.ok "0" :=
  (station_label_from_weather_id {} {} (HttpResult.response 200 (some {}))
      []).2.2.2.2.2 rfl

/-- Witness for C4 at a one-entry pollution payload: the AQI observation
emitted for station "42" is labelled exactly by ["42"]. -/
theorem pollutionObservations_per_field_witness :
    (Observation.mk "ow_air_pollution_aqi" ["42"] 0).labels = ["42"] :=
  (pollutionObservations_per_field "42"
      (decodePollution { list := some [{}] })).1
    (Observation.mk "ow_air_pollution_aqi" ["42"] 0) (by decide)
